import Mathlib

/-!
Shallow embedding of `python_blackbox.py`: an in-process egress control
layer that monkey-patches common Python networking entry points so that
outbound connection attempts are denied unless the destination host is
whitelisted or loopback.

The embedding models:
  * the pure host matcher `_host_allowed`;
  * the module-level state (`_ORIG`, `_BLOCKED`, `_WHITELIST`, `_DEBUG`)
    together with the patchable module attribute slots
    (`socket.socket`, `socket.create_connection`, ...);
  * the state transitions `block_network`, `allow_network`,
    `allow_temporary`, `add_whitelist`, `remove_whitelist`, `set_debug`;
  * the installed replacement `_blocked_create_connection`, whose result
    makes explicit whether it raised `NetworkBlockedError` or delegated
    to a saved original with given arguments.

Python strings are embedded as `String` (a list of characters); `str.lower`
is embedded via `Char.toLower`, which performs the ASCII case mapping used
by the hostnames in play.
-/

namespace PythonBlackbox

/-- Embedding of Python `str.lower` (ASCII case mapping on each character). -/
def strLower (s : String) : String :=
  ⟨s.data.map Char.toLower⟩

/-- Embedding of `host.split(":", 1)[0]` guarded by `":" in host`:
the characters of `host` strictly before the first colon. -/
def stripPort (host : String) : String :=
  if ':' ∈ host.data then ⟨host.data.takeWhile (fun c => c != ':')⟩ else host

/-- Normalisation performed by `_host_allowed` before matching:
strip a `:port` suffix (if a colon is present), then lower-case. -/
def hostNorm (host : String) : String :=
  strLower (stripPort host)

/-- The loop body of `_host_allowed`: the (already normalised) host equals a
whitelist entry or ends with `"." + entry`. -/
def whitelistMatch (whitelist : List String) (host : String) : Bool :=
  whitelist.any (fun w => host == w || ("." ++ w).data.isSuffixOf host.data)

/-- The loopback check of `_host_allowed`:
`host in ("localhost", "127.0.0.1", "::1")` on the normalised host. -/
def isLoopbackHost (host : String) : Bool :=
  host == "localhost" || host == "127.0.0.1" || host == "::1"

/-- Embedding of `_host_allowed(host)` with the global `_WHITELIST` passed
explicitly. Mirrors the source: empty host fails closed; strip a port when a
colon is present; lower-case; whitelist loop; loopback tuple; otherwise deny. -/
def _host_allowed (whitelist : List String) (host : String) : Bool :=
  if host == "" then false
  else
    let h := hostNorm host
    if whitelistMatch whitelist h then true
    else if isLoopbackHost h then true
    else false

/-! ## Module state and the patchable attribute slots -/

/-- A value held in a patchable module attribute slot, or saved in `_ORIG`.
`orig name` is an original (pre-interception) handle provided by the runtime;
the `blocked…` constructors are the module's replacement functions, including
the `_BlockedSocket` class, which the module defines (but, as proved below,
never installs). -/
inductive Handle where
  | orig (name : String)
  | blockedSocketCls
  | blockedCreateConnection
  | blockedUrlopen
  | blockedHttpConnect
  | blockedRequestsRequest
  deriving DecidableEq, Repr

/-- Pointwise update of the slot table (assignment to a module attribute). -/
def slotSet (slots : String → Handle) (k : String) (v : Handle) : String → Handle :=
  fun x => if x == k then v else slots x

/-- Python `dict` assignment `d[k] = v` on an insertion-ordered
association list: overwrite in place if the key is present, else append. -/
def dictSet (d : List (String × Handle)) (k : String) (v : Handle) :
    List (String × Handle) :=
  if (d.map Prod.fst).contains k then
    d.map (fun kv => if kv.1 = k then (k, v) else kv)
  else d ++ [(k, v)]

/-- Python `dict` lookup `d[k]`, returning `none` where Python would raise
`KeyError`. -/
def dictLookup : List (String × Handle) → String → Option Handle
  | [], _ => none
  | (k, v) :: rest, x => if x = k then some v else dictLookup rest x

/-- The module-level state of `python_blackbox`, together with the module
attribute slots it patches. `orig` is `_ORIG`, `blocked` is `_BLOCKED`,
`whitelist` is `_WHITELIST`, `debug` is `_DEBUG`. -/
structure PBState where
  slots : String → Handle
  orig : List (String × Handle)
  blocked : Bool
  whitelist : List String
  debug : Bool

/-- The state at module initialisation: every slot still holds the runtime's
original handle, `_ORIG` is empty, `_BLOCKED` is false, `_WHITELIST` is empty
(`debug` comes from the `PYTHON_BLACKBOX_DEBUG` environment variable). -/
def initState (dbg : Bool) : PBState :=
  { slots := Handle.orig, orig := [], blocked := false, whitelist := [], debug := dbg }

/-- Embedding of `block_network()`. `rp` says whether the optional `requests`
library was importable (module-level constant). Saves the four core originals
(and `requests.Session.request` when present) into `_ORIG`, installs the
replacement hooks for `socket.create_connection`, `urllib.request.urlopen`
and `http.client.HTTPConnection.connect`, and sets `_BLOCKED`. Note that the
source saves `socket.socket` but installs no replacement for it. -/
def block_network (rp : Bool) (s : PBState) : PBState :=
  if s.blocked then s
  else
    let orig1 := dictSet s.orig "socket.socket" (s.slots "socket.socket")
    let orig2 := dictSet orig1 "socket.create_connection" (s.slots "socket.create_connection")
    let orig3 := dictSet orig2 "urllib.request.urlopen" (s.slots "urllib.request.urlopen")
    let orig4 := dictSet orig3 "http.client.HTTPConnection.connect"
      (s.slots "http.client.HTTPConnection.connect")
    let slots1 := slotSet s.slots "socket.create_connection" Handle.blockedCreateConnection
    let slots2 := slotSet slots1 "urllib.request.urlopen" Handle.blockedUrlopen
    let slots3 := slotSet slots2 "http.client.HTTPConnection.connect" Handle.blockedHttpConnect
    let orig5 := if rp then
        dictSet orig4 "requests.Session.request" (s.slots "requests.Session.request")
      else orig4
    let slots4 := if rp then
        slotSet slots3 "requests.Session.request" Handle.blockedRequestsRequest
      else slots3
    { s with orig := orig5, slots := slots4, blocked := true }

/-- One iteration of the restore loop of `allow_network()`: the `elif` chain
on the saved key. `hs` embeds `hasattr(ssl, 'SSLContext')` and `rp` embeds
`requests is not None`. A key matching no branch is left alone. -/
def restoreItem (rp hs : Bool) (slots : String → Handle) (kv : String × Handle) :
    String → Handle :=
  if kv.1 == "socket.socket" then slotSet slots "socket.socket" kv.2
  else if kv.1 == "socket.create_connection" then
    slotSet slots "socket.create_connection" kv.2
  else if kv.1 == "urllib.request.urlopen" then
    slotSet slots "urllib.request.urlopen" kv.2
  else if kv.1 == "http.client.HTTPConnection.connect" then
    slotSet slots "http.client.HTTPConnection.connect" kv.2
  else if kv.1 == "ssl.SSLContext.wrap_socket" && hs then
    slotSet slots "ssl.SSLContext.wrap_socket" kv.2
  else if kv.1 == "requests.Session.request" && rp then
    slotSet slots "requests.Session.request" kv.2
  else slots

/-- Embedding of `allow_network()`: no-op when not blocked; otherwise restore
every saved original via the `elif` chain, clear `_ORIG`, reset `_BLOCKED`. -/
def allow_network (rp hs : Bool) (s : PBState) : PBState :=
  if !s.blocked then s
  else
    { s with
      slots := s.orig.foldl (restoreItem rp hs) s.slots
      orig := []
      blocked := false }

/-- Embedding of `is_blocked()`. -/
def is_blocked (s : PBState) : Bool :=
  s.blocked

/-- Embedding of the `allow_temporary()` context manager. The body is an
arbitrary state transformer returning its final state and whether it raised;
the `finally` clause runs on both exit paths, so the guard's state effect is
the same either way and the raised flag is propagated. -/
def allow_temporary (rp hs : Bool) (body : PBState → PBState × Bool) (s : PBState) :
    PBState × Bool :=
  let wasBlocked := is_blocked s
  let s1 := if wasBlocked then allow_network rp hs s else s
  let br := body s1
  let s3 := if wasBlocked then block_network rp br.fst else br.fst
  (s3, br.snd)

/-- Embedding of `add_whitelist` (`set.add`: no duplicate is introduced). -/
def add_whitelist (e : String) (s : PBState) : PBState :=
  { s with whitelist := if s.whitelist.contains e then s.whitelist else s.whitelist ++ [e] }

/-- Embedding of `remove_whitelist` (`set.discard`). -/
def remove_whitelist (e : String) (s : PBState) : PBState :=
  { s with whitelist := s.whitelist.erase e }

/-- Embedding of `set_debug`. -/
def set_debug (b : Bool) (s : PBState) : PBState :=
  { s with debug := b }

/-! ## The installed connect-to-address hook -/

/-- The error raised at a blocked attempt. -/
structure NetworkBlockedError where
  message : String
  deriving DecidableEq, Repr

/-- Outcome of a call to `_blocked_create_connection`: it raised
`NetworkBlockedError` (the saved original was not called), it raised
`KeyError` (saved original missing from `_ORIG`), or it delegated to the
saved original handle with the given arguments. -/
inductive ConnResult where
  | raised (e : NetworkBlockedError)
  | keyError (k : String)
  | delegated (f : Handle) (address : String × Nat) (timeout : Option Nat)
      (source_address : Option String)
  deriving DecidableEq, Repr

/-- Embedding of `_blocked_create_connection(address, timeout, source_address)`,
with the globals `_WHITELIST` and `_ORIG` read from the state. -/
def _blocked_create_connection (s : PBState) (address : String × Nat)
    (timeout : Option Nat) (source_address : Option String) : ConnResult :=
  if _host_allowed s.whitelist address.1 then
    match dictLookup s.orig "socket.create_connection" with
    | some f => ConnResult.delegated f address timeout source_address
    | none => ConnResult.keyError "socket.create_connection"
  else
    ConnResult.raised
      ⟨"Attempt to connect to " ++ address.1 ++ ":" ++ toString address.2 ++
        " blocked by python_blackbox"⟩

/-! ## Programs over the public enforcement operations (for frame claims) -/

/-- Programs built from the enforcement operations `block_network`,
`allow_network` and `allow_temporary` (whose body is again such a program). -/
inductive Prog where
  | skip
  | block
  | allow
  | seq (p q : Prog)
  | temp (body : Prog)

/-- Run a `Prog` against the module state. -/
def runProg (rp hs : Bool) : Prog → PBState → PBState
  | Prog.skip, s => s
  | Prog.block, s => block_network rp s
  | Prog.allow, s => allow_network rp hs s
  | Prog.seq p q, s => runProg rp hs q (runProg rp hs p s)
  | Prog.temp b, s =>
      (allow_temporary rp hs (fun t => (runProg rp hs b t, false)) s).fst

/-- The spec's `savedOriginals` invariant: `_ORIG` is non-empty exactly while
`_BLOCKED` is true. -/
def origInv (s : PBState) : Prop :=
  s.orig ≠ [] ↔ s.blocked = true

instance (s : PBState) : Decidable (origInv s) := by
  unfold origInv; infer_instance

/-- The hook categories the restore `elif` chain of `allow_network` is able
to restore (under the availability guards for `ssl.SSLContext` and the
optional `requests` library). -/
def restorableKey (rp hs : Bool) (k : String) : Bool :=
  k == "socket.socket" || k == "socket.create_connection" ||
  k == "urllib.request.urlopen" || k == "http.client.HTTPConnection.connect" ||
  (k == "ssl.SSLContext.wrap_socket" && hs) || (k == "requests.Session.request" && rp)

/-! ## Basic behaviour of the matcher and the state transitions -/

example : _host_allowed ["example.com"] "api.example.com" = true := by decide
example : _host_allowed ["example.com"] "notexample.com" = false := by decide
example : _host_allowed ["example.com"] "API.Example.com" = true := by decide
example : _host_allowed ["example.com"] "example.com:8443" = true := by decide

theorem host_allowed_of_loopback (wl : List String) (h : String)
    (hne : (h == "") = false) (hl : isLoopbackHost (hostNorm h) = true) :
    _host_allowed wl h = true := by
  simp only [_host_allowed, hne, Bool.false_eq_true, if_false]
  cases hw : whitelistMatch wl (hostNorm h) <;> simp [hw, hl]

theorem host_allowed_localhost (wl : List String) :
    _host_allowed wl "localhost" = true :=
  host_allowed_of_loopback wl "localhost" (by decide) (by decide)

theorem host_allowed_loopback_v4 (wl : List String) :
    _host_allowed wl "127.0.0.1" = true :=
  host_allowed_of_loopback wl "127.0.0.1" (by decide) (by decide)

theorem host_allowed_false_of_no_match (wl : List String) (h : String)
    (hw : whitelistMatch wl (hostNorm h) = false)
    (hl : isLoopbackHost (hostNorm h) = false) :
    _host_allowed wl h = false := by
  cases hne : (h == "") <;> simp [_host_allowed, hne, hw, hl]

theorem blocked_block_network (rp : Bool) (s : PBState) :
    (block_network rp s).blocked = true := by
  by_cases hb : s.blocked <;> simp [block_network, hb]

theorem blocked_allow_network (rp hs : Bool) (s : PBState) :
    (allow_network rp hs s).blocked = false := by
  by_cases hb : s.blocked <;> simp [allow_network, hb]

theorem whitelist_block_network (rp : Bool) (s : PBState) :
    (block_network rp s).whitelist = s.whitelist := by
  by_cases hb : s.blocked <;> simp [block_network, hb]

theorem whitelist_allow_network (rp hs : Bool) (s : PBState) :
    (allow_network rp hs s).whitelist = s.whitelist := by
  by_cases hb : s.blocked <;> simp [allow_network, hb]

/-- C2: of the fixed safe set, `localhost` and `127.0.0.1` are indeed allowed
for every whitelist, but `::1` is NOT: the port-stripping step truncates
`"::1"` at its first colon to the empty string before the loopback tuple is
consulted, so with the empty whitelist `_host_allowed` denies `"::1"`,
contradicting the claim (and the code's own `"::1"` loopback tuple entry,
which is unreachable for that literal). -/
theorem c2_safe_set_loopback_bug :
    (∀ wl, _host_allowed wl "localhost" = true) ∧
    (∀ wl, _host_allowed wl "127.0.0.1" = true) ∧
    _host_allowed [] "::1" = false :=
  ⟨host_allowed_localhost, host_allowed_loopback_v4, by decide⟩

/-- C5: `block_network` saves `socket.socket` into `_ORIG` but never installs
any replacement for it: the `socket.socket` slot is unchanged by
`block_network` from every state, and in particular after enabling
enforcement from the initial state the slot still holds the runtime original,
not the (dead) `_BlockedSocket` class — raw socket construction is NOT
denied, contradicting the claim. -/
theorem c5_raw_socket_hook_never_installed :
    (∀ rp s, (block_network rp s).slots "socket.socket" = s.slots "socket.socket") ∧
    (block_network true (initState false)).slots "socket.socket" =
      Handle.orig "socket.socket" ∧
    (block_network true (initState false)).slots "socket.socket" ≠
      Handle.blockedSocketCls := by
  refine ⟨fun rp s => ?_, by decide, by decide⟩
  by_cases hb : s.blocked
  · simp [block_network, hb]
  · cases rp <;> simp [block_network, hb, slotSet]

/-- C7: `block_network` and `allow_network` are idempotent: calling either
twice in a row from any state yields exactly the state (flag, saved-originals
table, installed slots, whitelist, debug) after calling it once. -/
theorem c7_enable_disable_idempotent :
    (∀ rp s, block_network rp (block_network rp s) = block_network rp s) ∧
    (∀ rp hs s, allow_network rp hs (allow_network rp hs s) = allow_network rp hs s) := by
  constructor
  · intro rp s
    have h := blocked_block_network rp s
    rw [block_network]
    simp [h]
  · intro rp hs s
    have h := blocked_allow_network rp hs s
    rw [allow_network]
    simp [h]

/-- C6: the `allow_temporary` scope guard leaves the enforcement flag on exit
equal to its value on entry, for every initial state and every body that does
not itself toggle the flag, whether the body returns normally or raises (the
`finally` clause runs on both exit paths); moreover, when enforcement was
active on entry it is disabled during the block, and when it was off on entry
the guard performs no enable at all. -/
theorem c6_allow_temporary_restores (rp hs : Bool) (body : PBState → PBState × Bool)
    (s : PBState) (hbody : ∀ t, ((body t).fst).blocked = t.blocked) :
    ((allow_temporary rp hs body s).fst).blocked = s.blocked ∧
    (s.blocked = true → (allow_network rp hs s).blocked = false) := by
  refine ⟨?_, fun _ => blocked_allow_network rp hs s⟩
  by_cases hb : s.blocked
  · simp [allow_temporary, is_blocked, hb, blocked_block_network]
  · simp only [allow_temporary, is_blocked, hb, if_false, Bool.false_eq_true]
    rw [hbody]
    simp [hb]

/-- Closed witness for C6, exercising the meaningful path: entering the guard
from an enforcing state and leaving it re-enabled. -/
theorem c6_witness :
    ((allow_temporary true true (fun t => (t, false))
        (block_network true (initState false))).fst).blocked =
      (block_network true (initState false)).blocked ∧
    ((block_network true (initState false)).blocked = true →
      (allow_network true true (block_network true (initState false))).blocked = false) :=
  c6_allow_temporary_restores true true (fun t => (t, false))
    (block_network true (initState false)) (fun _ => rfl)

/-- C10: no sequence of the enforcement operations `block_network`,
`allow_network` and `allow_temporary` (with bodies again built from such
operations) ever modifies the whitelist. -/
theorem c10_enforcement_ops_preserve_whitelist (rp hs : Bool) :
    ∀ p s, (runProg rp hs p s).whitelist = s.whitelist := by
  intro p
  induction p with
  | skip => intro s; rfl
  | block => intro s; exact whitelist_block_network rp s
  | allow => intro s; exact whitelist_allow_network rp hs s
  | seq p q ihp ihq => intro s; rw [runProg, ihq, ihp]
  | temp b ih =>
    intro s
    by_cases hb : s.blocked <;>
      simp [runProg, allow_temporary, is_blocked, hb, whitelist_block_network,
        whitelist_allow_network, ih]

/-! ## The saved-originals invariant -/

theorem dictSet_ne_nil (d : List (String × Handle)) (k : String) (v : Handle) :
    dictSet d k v ≠ [] := by
  unfold dictSet
  split
  · cases d with
    | nil => simp_all
    | cons a t => simp
  · simp

/-- C8: the invariant "`_ORIG` non-empty iff `_BLOCKED`" holds initially and
is preserved by every public operation: enable, disable, the scope guard
(for bodies that themselves preserve it), whitelist add/remove, and the
debug toggle. -/
theorem c8_orig_nonempty_iff_blocked :
    (∀ dbg, origInv (initState dbg)) ∧
    (∀ rp s, origInv s → origInv (block_network rp s)) ∧
    (∀ rp hs s, origInv s → origInv (allow_network rp hs s)) ∧
    (∀ rp hs body s, (∀ t, origInv t → origInv ((body t).fst)) →
      origInv s → origInv ((allow_temporary rp hs body s).fst)) ∧
    (∀ e s, origInv s → origInv (add_whitelist e s)) ∧
    (∀ e s, origInv s → origInv (remove_whitelist e s)) ∧
    (∀ b s, origInv s → origInv (set_debug b s)) := by
  have hblock : ∀ rp s, origInv s → origInv (block_network rp s) := by
    intro rp s hs
    by_cases hb : s.blocked
    · simpa [block_network, hb] using hs
    · cases rp <;>
        simp [block_network, hb, origInv, dictSet_ne_nil]
  have hallow : ∀ rp hs s, origInv s → origInv (allow_network rp hs s) := by
    intro rp hs s hsv
    by_cases hb : s.blocked
    · simp [allow_network, hb, origInv]
    · simpa [allow_network, hb] using hsv
  refine ⟨fun dbg => by simp [origInv, initState], hblock, hallow, ?_, ?_, ?_, ?_⟩
  · intro rp hs body s hbody hsv
    by_cases hb : s.blocked
    · simp only [allow_temporary, is_blocked, hb, if_true]
      exact hblock rp _ (hbody _ (hallow rp hs s hsv))
    · simp only [allow_temporary, is_blocked, hb, Bool.false_eq_true, if_false]
      exact hbody _ hsv
  · intro e s hsv; simpa [origInv, add_whitelist] using hsv
  · intro e s hsv; simpa [origInv, remove_whitelist] using hsv
  · intro b s hsv; simpa [origInv, set_debug] using hsv

/-- Closed witness for C8: the invariant propagated from the initial state
through enable, a scope guard with an inert body, and disable. -/
theorem c8_witness :
    origInv (block_network true (initState false)) ∧
    origInv ((allow_temporary true true (fun t => (t, false))
      (block_network true (initState false))).fst) ∧
    origInv (allow_network true true (block_network true (initState false))) := by
  refine ⟨?_, ?_, ?_⟩
  · exact c8_orig_nonempty_iff_blocked.2.1 true (initState false)
      (c8_orig_nonempty_iff_blocked.1 false)
  · exact c8_orig_nonempty_iff_blocked.2.2.2.1 true true (fun t => (t, false))
      (block_network true (initState false)) (fun _ h => h)
      (c8_orig_nonempty_iff_blocked.2.1 true (initState false)
        (c8_orig_nonempty_iff_blocked.1 false))
  · exact c8_orig_nonempty_iff_blocked.2.2.1 true true
      (block_network true (initState false))
      (c8_orig_nonempty_iff_blocked.2.1 true (initState false)
        (c8_orig_nonempty_iff_blocked.1 false))

/-! ## Characterising the restore loop of `allow_network` -/

theorem restoreItem_apply (rp hs : Bool) (slots : String → Handle)
    (kv : String × Handle) (x : String) :
    restoreItem rp hs slots kv x =
      if x == kv.1 && restorableKey rp hs kv.1 then kv.2 else slots x := by
  obtain ⟨k, v⟩ := kv
  simp only [restoreItem, restorableKey, slotSet]
  by_cases h1 : k = "socket.socket"
  · subst h1; by_cases hx : x = "socket.socket" <;> simp [slotSet, hx]
  · by_cases h2 : k = "socket.create_connection"
    · subst h2; by_cases hx : x = "socket.create_connection" <;> simp [slotSet, hx]
    · by_cases h3 : k = "urllib.request.urlopen"
      · subst h3; by_cases hx : x = "urllib.request.urlopen" <;> simp [slotSet, hx]
      · by_cases h4 : k = "http.client.HTTPConnection.connect"
        · subst h4
          by_cases hx : x = "http.client.HTTPConnection.connect" <;> simp [slotSet, hx, h1, h2, h3]
        · by_cases h5 : k = "ssl.SSLContext.wrap_socket"
          · subst h5
            cases hs <;> by_cases hx : x = "ssl.SSLContext.wrap_socket" <;>
              simp [slotSet, hx, h1, h2, h3, h4]
          · by_cases h6 : k = "requests.Session.request"
            · subst h6
              cases rp <;> by_cases hx : x = "requests.Session.request" <;>
                simp [slotSet, hx, h1, h2, h3, h4, h5]
            · simp [h1, h2, h3, h4, h5, h6]

theorem foldl_restoreItem_of_not_mem (rp hs : Bool) :
    ∀ (l : List (String × Handle)) (slots : String → Handle) (x : String),
      x ∉ l.map Prod.fst →
      (l.foldl (restoreItem rp hs) slots) x = slots x := by
  intro l
  induction l with
  | nil => intro slots x _; rfl
  | cons kv t ih =>
    intro slots x hx
    simp only [List.map_cons, List.mem_cons, not_or] at hx
    rw [List.foldl_cons, ih _ _ hx.2, restoreItem_apply]
    simp [hx.1]

theorem foldl_restoreItem_lookup (rp hs : Bool) :
    ∀ (l : List (String × Handle)) (slots : String → Handle) (x : String),
      (l.map Prod.fst).Nodup →
      (l.foldl (restoreItem rp hs) slots) x =
        (match dictLookup l x with
         | some v => if restorableKey rp hs x then v else slots x
         | none => slots x) := by
  intro l
  induction l with
  | nil => intro slots x _; rfl
  | cons kv t ih =>
    intro slots x hnd
    obtain ⟨k, v⟩ := kv
    simp only [List.map_cons, List.nodup_cons] at hnd
    by_cases hxk : x = k
    · subst hxk
      rw [List.foldl_cons, foldl_restoreItem_of_not_mem rp hs t _ x hnd.1,
        restoreItem_apply]
      simp [dictLookup]
    · rw [List.foldl_cons, ih _ x hnd.2]
      have hslot : restoreItem rp hs slots (k, v) x = slots x := by
        rw [restoreItem_apply]; simp [hxk]
      simp only [dictLookup, beq_iff_eq, hxk, if_false]
      cases hl : dictLookup t x <;> simp [hl, hslot]

/-- C9: disabling from any enforcing state (with distinct saved keys, as in a
Python `dict`) clears `_ORIG`, resets `_BLOCKED`, and leaves every slot whose
original was never captured untouched while restoring every captured and
restorable category to its saved handle. In particular restoring a category
that was never installed (SSL wrap, or `requests` when absent) is a no-op,
and `allow_network` is a total function — it cannot fail. -/
theorem c9_allow_network_restore (rp hs : Bool) (s : PBState)
    (hb : s.blocked = true) (hnd : (s.orig.map Prod.fst).Nodup) :
    (allow_network rp hs s).orig = [] ∧
    (allow_network rp hs s).blocked = false ∧
    ∀ k, (allow_network rp hs s).slots k =
      (match dictLookup s.orig k with
       | some v => if restorableKey rp hs k then v else s.slots k
       | none => s.slots k) := by
  refine ⟨?_, ?_, ?_⟩
  · simp [allow_network, hb]
  · simp [allow_network, hb]
  · intro k
    simp only [allow_network, hb, Bool.not_true, Bool.false_eq_true, if_false]
    exact foldl_restoreItem_lookup rp hs s.orig s.slots k hnd

/-- Closed witness for C9: disabling right after enabling from the initial
state clears `_ORIG` and puts the captured original back into the
`socket.create_connection` slot, while the never-captured SSL wrap slot is
untouched. -/
theorem c9_witness :
    (allow_network true true (block_network true (initState false))).orig = [] ∧
    (allow_network true true (block_network true (initState false))).slots
      "socket.create_connection" = Handle.orig "socket.create_connection" ∧
    (allow_network true true (block_network true (initState false))).slots
      "ssl.SSLContext.wrap_socket" = Handle.orig "ssl.SSLContext.wrap_socket" := by
  have h := c9_allow_network_restore true true (block_network true (initState false))
    (blocked_block_network true (initState false)) (by decide)
  refine ⟨h.1, ?_, ?_⟩
  · have := h.2.2 "socket.create_connection"
    rw [this]; decide
  · have := h.2.2 "ssl.SSLContext.wrap_socket"
    rw [this]; decide

/-! ## The connect-to-address hook: deny or delegate -/

theorem dictLookup_map_overwrite_ne (k v x) (hxk : x ≠ k) :
    ∀ d : List (String × Handle),
      dictLookup (d.map fun kv => if kv.1 = k then (k, v) else kv) x = dictLookup d x := by
  intro d
  induction d with
  | nil => rfl
  | cons kv t ih =>
    obtain ⟨a, b⟩ := kv
    simp only [List.map_cons]
    by_cases hak : a = k
    · subst hak
      rw [if_pos rfl]
      simp [dictLookup, hxk, ih]
    · rw [if_neg hak]
      simp [dictLookup, ih]

theorem dictLookup_append_single_ne (k v x) (hxk : x ≠ k) :
    ∀ d : List (String × Handle),
      dictLookup (d ++ [(k, v)]) x = dictLookup d x := by
  intro d
  induction d with
  | nil => simp [dictLookup, hxk]
  | cons kv t ih =>
    obtain ⟨a, b⟩ := kv
    by_cases hxa : x = a <;> simp [dictLookup, hxa, ih]

theorem dictLookup_dictSet_ne (d : List (String × Handle)) (k v x) (hxk : x ≠ k) :
    dictLookup (dictSet d k v) x = dictLookup d x := by
  unfold dictSet
  split
  · exact dictLookup_map_overwrite_ne k v x hxk d
  · exact dictLookup_append_single_ne k v x hxk d

theorem dictLookup_map_overwrite_self (k v) :
    ∀ d : List (String × Handle), (d.map Prod.fst).contains k →
      dictLookup (d.map fun kv => if kv.1 = k then (k, v) else kv) k = some v := by
  intro d
  induction d with
  | nil => intro h; simp at h
  | cons kv t ih =>
    intro hc
    obtain ⟨a, b⟩ := kv
    simp only [List.map_cons]
    by_cases hak : a = k
    · subst hak
      rw [if_pos rfl]
      simp [dictLookup]
    · simp only [List.map_cons, List.contains_cons] at hc
      have hkt : (t.map Prod.fst).contains k := by
        rcases Bool.or_eq_true_iff.mp hc with h | h
        · exact absurd (beq_iff_eq.mp h).symm hak
        · exact h
      rw [if_neg hak]
      simp only [dictLookup]
      rw [if_neg (fun h => hak h.symm)]
      exact ih hkt

theorem dictLookup_dictSet_self (d : List (String × Handle)) (k v) :
    dictLookup (dictSet d k v) k = some v := by
  unfold dictSet
  split
  case isTrue hc => exact dictLookup_map_overwrite_self k v d hc
  case isFalse hc =>
    induction d with
    | nil => simp [dictLookup]
    | cons kv t ih =>
      obtain ⟨a, b⟩ := kv
      simp only [List.map_cons, List.contains_cons, Bool.or_eq_true_iff, not_or] at hc
      have hka : ¬k = a := fun h => hc.1 (by simp [h])
      simp [dictLookup, hka, ih hc.2]

theorem dictLookup_block_network_create_connection (rp : Bool) (s : PBState)
    (hb : s.blocked = false) :
    dictLookup (block_network rp s).orig "socket.create_connection" =
      some (s.slots "socket.create_connection") := by
  simp only [block_network, hb, Bool.false_eq_true, if_false]
  cases rp <;>
    simp [dictLookup_dictSet_ne, dictLookup_dictSet_self,
      (by decide : ("socket.create_connection" : String) ≠ "requests.Session.request"),
      (by decide : ("socket.create_connection" : String) ≠ "http.client.HTTPConnection.connect"),
      (by decide : ("socket.create_connection" : String) ≠ "urllib.request.urlopen")]

/-- C1: the installed connect-to-address hook `_blocked_create_connection`
raises `NetworkBlockedError` — without touching the saved original — for
every state and address whose host matches neither the whitelist loop nor the
loopback tuple (e.g. `example.com` under the empty whitelist), and for
`127.0.0.1` under any whitelist it delegates to the original
`socket.create_connection` saved when enforcement was enabled, passing the
original arguments through. -/
theorem c1_blocked_create_connection_policy :
    (∀ (s : PBState) (h : String) (p : Nat) (t : Option Nat) (sa : Option String),
      whitelistMatch s.whitelist (hostNorm h) = false →
      isLoopbackHost (hostNorm h) = false →
      _blocked_create_connection s (h, p) t sa =
        ConnResult.raised
          ⟨"Attempt to connect to " ++ h ++ ":" ++ toString p ++
            " blocked by python_blackbox"⟩) ∧
    (∀ (rp : Bool) (s : PBState) (p : Nat) (t : Option Nat) (sa : Option String),
      s.blocked = false →
      _blocked_create_connection (block_network rp s) ("127.0.0.1", p) t sa =
        ConnResult.delegated (s.slots "socket.create_connection") ("127.0.0.1", p) t sa) := by
  constructor
  · intro s h p t sa hw hl
    have hdeny := host_allowed_false_of_no_match s.whitelist h hw hl
    simp [_blocked_create_connection, hdeny]
  · intro rp s p t sa hb
    have hallow : _host_allowed (block_network rp s).whitelist "127.0.0.1" = true :=
      host_allowed_loopback_v4 _
    simp [_blocked_create_connection, hallow,
      dictLookup_block_network_create_connection rp s hb]

/-- Closed witness for C1: with enforcement enabled from the initial state
(empty whitelist), connecting to `example.com` raises the denial error and
connecting to `127.0.0.1` delegates to the saved original. -/
theorem c1_witness :
    _blocked_create_connection (block_network true (initState false))
        ("example.com", 80) none none =
      ConnResult.raised
        ⟨"Attempt to connect to example.com:80 blocked by python_blackbox"⟩ ∧
    _blocked_create_connection (block_network true (initState false))
        ("127.0.0.1", 80) none none =
      ConnResult.delegated (Handle.orig "socket.create_connection")
        ("127.0.0.1", 80) none none := by
  constructor
  · have := c1_blocked_create_connection_policy.1
      (block_network true (initState false)) "example.com" 80 none none
      (by rw [whitelist_block_network]; decide) (by decide)
    simpa using this
  · exact c1_blocked_create_connection_policy.2 true (initState false) 80 none none rfl

/-! ## Case analysis of the ASCII lower-casing used by the matcher -/

theorem charToNat_toLower (c : Char) :
    (Char.toLower c).toNat =
      if c.toNat ≥ 65 ∧ c.toNat ≤ 90 then c.toNat + 32 else c.toNat := by
  by_cases h : c.toNat ≥ 65 ∧ c.toNat ≤ 90
  · simp only [Char.toLower]
    rw [if_pos h, if_pos h]
    have hv : Nat.isValidChar (c.toNat + 32) := Or.inl (by omega)
    simp only [Char.ofNat]
    rw [dif_pos hv]
    rfl
  · simp only [Char.toLower]
    rw [if_neg h, if_neg h]

theorem toLower_toLower (c : Char) :
    Char.toLower (Char.toLower c) = Char.toLower c := by
  apply Char.eq_of_val_eq
  apply UInt32.ext
  show (Char.toLower (Char.toLower c)).toNat = (Char.toLower c).toNat
  rw [charToNat_toLower (Char.toLower c), charToNat_toLower c]
  split_ifs <;> omega

theorem toLower_eq_colon_iff (c : Char) : Char.toLower c = ':' ↔ c = ':' := by
  constructor
  · intro h
    have hn := congrArg Char.toNat h
    rw [charToNat_toLower] at hn
    have h58 : (':' : Char).toNat = 58 := rfl
    rw [h58] at hn
    split_ifs at hn with hc
    · omega
    · apply Char.eq_of_val_eq
      apply UInt32.ext
      show c.toNat = (':' : Char).toNat
      rw [h58]
      exact hn
  · intro h
    subst h
    decide

theorem bne_colon_toLower (c : Char) : (Char.toLower c != ':') = (c != ':') := by
  by_cases h : c = ':'
  · subst h; decide
  · have h2 : Char.toLower c ≠ ':' := fun he => h ((toLower_eq_colon_iff c).mp he)
    rw [bne_iff_ne.mpr h2, bne_iff_ne.mpr h]

theorem colon_mem_map_toLower (l : List Char) :
    ':' ∈ l.map Char.toLower ↔ ':' ∈ l := by
  rw [List.mem_map]
  constructor
  · rintro ⟨a, ha, he⟩
    rw [toLower_eq_colon_iff] at he
    subst he
    exact ha
  · intro h
    exact ⟨':', h, by decide⟩

theorem takeWhile_colon_map_toLower (l : List Char) :
    (l.map Char.toLower).takeWhile (fun c => c != ':') =
      (l.takeWhile (fun c => c != ':')).map Char.toLower := by
  rw [List.takeWhile_map]
  have hp : ((fun c => c != ':') ∘ Char.toLower) = (fun c : Char => c != ':') :=
    funext fun c => bne_colon_toLower c
  rw [hp]

theorem strLower_strLower (s : String) : strLower (strLower s) = strLower s := by
  unfold strLower
  apply String.ext
  show (s.data.map Char.toLower).map Char.toLower = s.data.map Char.toLower
  rw [List.map_map]
  have hc : Char.toLower ∘ Char.toLower = Char.toLower := funext toLower_toLower
  rw [hc]

theorem hostNorm_strLower (h : String) : hostNorm (strLower h) = hostNorm h := by
  unfold hostNorm stripPort
  by_cases hc : ':' ∈ h.data
  · have hc2 : ':' ∈ (strLower h).data := (colon_mem_map_toLower h.data).mpr hc
    rw [if_pos hc2, if_pos hc]
    unfold strLower
    apply String.ext
    show ((h.data.map Char.toLower).takeWhile (fun c => c != ':')).map Char.toLower =
      (h.data.takeWhile (fun c => c != ':')).map Char.toLower
    rw [takeWhile_colon_map_toLower, List.map_map,
      (funext toLower_toLower : Char.toLower ∘ Char.toLower = Char.toLower)]
  · have hc2 : ':' ∉ (strLower h).data := fun m => hc ((colon_mem_map_toLower h.data).mp m)
    rw [if_neg hc2, if_neg hc]
    exact strLower_strLower h

theorem host_allowed_strLower (wl : List String) (h : String) :
    _host_allowed wl (strLower h) = _host_allowed wl h := by
  by_cases h0 : h = ""
  · subst h0; rfl
  · have hsl : strLower h ≠ "" := by
      intro he
      apply h0
      apply String.ext
      have hd : h.data.map Char.toLower = [] := congrArg String.data he
      simpa using List.map_eq_nil_iff.mp hd
    have e1 : (h == "") = false := by simp [h0]
    have e2 : (strLower h == "") = false := by simp [hsl]
    simp only [_host_allowed, e1, e2, Bool.false_eq_true, if_false, hostNorm_strLower]

/-- C3 counterexample: the claim quantifies over all host strings and
entries, but it fails when the host contains an upper-case letter, a colon,
or is empty, even though `h` literally equals `w` in each case: the matcher
lower-cases and port-strips the host before comparing it verbatim with the
entry, and fails closed on the empty host. -/
theorem c3_counterexample :
    _host_allowed ["A"] "A" = false ∧
    _host_allowed ["a:1"] "a:1" = false ∧
    _host_allowed [""] "" = false := by decide

/-- C3 (amended): restricted to hosts that are nonempty, colon-free and
already lower-case — the form the matcher's normalisation leaves unchanged —
equality with the entry or a true-subdomain suffix (`"." + entry`) makes the
host allowed under the singleton whitelist, while `notexample.com` is not
allowed under `{example.com}` (no false suffix match). -/
theorem c3_exact_and_subdomain_match :
    (∀ (h w : String), h ≠ "" → ':' ∉ h.data → strLower h = h →
      (h = w ∨ ("." ++ w).data.isSuffixOf h.data = true) →
      _host_allowed [w] h = true) ∧
    _host_allowed ["example.com"] "notexample.com" = false := by
  refine ⟨fun h w hne hc hlow hm => ?_, by decide⟩
  have hnorm : hostNorm h = h := by
    unfold hostNorm stripPort
    rw [if_neg hc]
    exact hlow
  have hbeq : (h == "") = false := by simp [hne]
  have hwm : whitelistMatch [w] h = true := by
    simp only [whitelistMatch, List.any_cons, List.any_nil, Bool.or_false]
    rcases hm with hm | hm
    · subst hm; simp
    · rw [hm, Bool.or_true]
  simp [_host_allowed, hbeq, hnorm, hwm]

/-- Closed witness for C3: the subdomain `api.example.com` is allowed under
the whitelist `{example.com}`. -/
theorem c3_witness : _host_allowed ["example.com"] "api.example.com" = true :=
  c3_exact_and_subdomain_match.1 "api.example.com" "example.com"
    (by decide) (by decide) (by decide) (Or.inr (by decide))

/-- C4 counterexample: changing the letter case of the whitelist entry
changes the result — `example.com` is allowed under `{example.com}` but not
under `{EXAMPLE.COM}` — refuting case-insensitivity on the entry side; the
matcher lower-cases only the host and compares entries verbatim. -/
theorem c4_counterexample :
    _host_allowed ["example.com"] "example.com" = true ∧
    _host_allowed ["EXAMPLE.COM"] "example.com" = false := by decide

/-- C4 (amended): host matching is case-insensitive in the host argument
only: two hosts with the same lower-casing match identically under every
whitelist (so changing the letter case of the host never changes the
result), and in particular `API.Example.com` is allowed under
`{example.com}`; whitelist entries, however, are compared verbatim against
the lower-cased host. -/
theorem c4_case_insensitive_host_only :
    (∀ (wl : List String) (h1 h2 : String), strLower h1 = strLower h2 →
      _host_allowed wl h1 = _host_allowed wl h2) ∧
    _host_allowed ["example.com"] "API.Example.com" = true := by
  refine ⟨fun wl h1 h2 he => ?_, by decide⟩
  rw [← host_allowed_strLower wl h1, he, host_allowed_strLower]

/-- Closed witness for C4: `API.Example.com` and `api.example.com` are
treated identically under the whitelist `{example.com}`. -/
theorem c4_witness :
    _host_allowed ["example.com"] "API.Example.com" =
      _host_allowed ["example.com"] "api.example.com" :=
  c4_case_insensitive_host_only.1 ["example.com"] "API.Example.com"
    "api.example.com" (by decide)

end PythonBlackbox
